import Mathlib

/-!
Verification of `pytest_remotedata/disable_internet.py`.

The module intercepts the three low-level connection primitives
(`socket.create_connection`, `socket.socket.bind`, `socket.socket.connect`),
classifies each connection attempt against an allow-list, and restores the
originals on disable.  We embed:

* the pure host classifier (`_resolve_host_ips`, `check_internet_off`'s
  inner `new_function`) as total Lean functions over an explicit network
  environment `NetEnv` (the results of `socket.getaddrinfo`,
  `socket.gethostname`, `socket.getfqdn`);
* the interception controller (`turn_off_internet`, `turn_on_internet`,
  `no_internet`) as a state machine over `CState`, which collects the
  module-global mutable state (`INTERNET_OFF`, the three installed
  primitives, `_orig_opener`) together with urllib's globally installed
  opener that the module reads and writes through
  `urllib.request.install_opener`.
-/

namespace DisableInternet

/-- The address family of a Python socket object (`args[0].family`). -/
inductive AddressFamily where
  | af_inet
  | af_inet6
  | af_unix
  | af_other (code : Nat)
deriving DecidableEq

/-- One positional argument of a wrapped primitive call.

`tup host port extra` is a tuple `(host, port, *extra)` whose first element is
a string and second an integer: `extra = []` is the ordinary 2-tuple address,
a nonempty `extra` a longer address tuple (for these, the tuple-shape check
`len(args[0]) == 2` in the source fails).  `otherObj` is any first argument
that is neither a socket object nor a tuple with a string head (tuples of
length below two behave like `otherObj` at the `args[0]` shape check: they
are tuples but their length is not 2, so the call is passed through). -/
inductive PyArg where
  | sock (family : AddressFamily)
  | tup (host : String) (port : Nat) (extra : List Nat)
  | otherObj (tag : Nat)
deriving DecidableEq

/-- The ambient network environment read by the classifier:
`getaddrinfo hostname port` returns `none` when the lookup raises
`socket.gaierror`, otherwise the list of resolved IP strings
(the `s[-1][0]` of each returned 5-tuple); `hostname` and `fqdn` are the
results of `socket.gethostname()` and `socket.getfqdn()`. -/
structure NetEnv where
  getaddrinfo : String → Nat → Option (List String)
  hostname : String
  fqdn : String

/-- Source line 14: `GITHUB_HOSTS = ['www.github.io']`. -/
def GITHUB_HOSTS : List String := ["www.github.io"]

/-- Source lines 15-16: the astropy hosts plus the GitHub hosts. -/
def ASTROPY_HOSTS : List String :=
  ["data.astropy.org", "astropy.stsci.edu", "www.astropy.org"] ++ GITHUB_HOSTS

/-- Source lines 26-37, `_resolve_host_ips(hostname, port=80)`:
the set of IPs returned by `getaddrinfo` (empty set on `gaierror`),
with the literal hostname added.  Totality of this Lean function mirrors
"never fails". -/
def resolve_host_ips (env : NetEnv) (hostname : String) (port : Nat := 80) :
    Finset String :=
  let ips : Finset String :=
    match env.getaddrinfo hostname port with
    | some addrs => addrs.toFinset
    | none => ∅
  insert hostname ips

/-- Source lines 74-82: extend `valid_hosts` with the resolved identity sets
of every astropy host when `allow_astropy_data`, else of every GitHub host
when `allow_github_data` (an `if` / `elif` chain, so astropy wins). -/
def extend_valid (env : NetEnv) (allow_astropy_data allow_github_data : Bool)
    (valid_hosts : Finset String) : Finset String :=
  if allow_astropy_data then
    ASTROPY_HOSTS.foldl (fun v h => v ∪ resolve_host_ips env h) valid_hosts
  else if allow_github_data then
    GITHUB_HOSTS.foldl (fun v h => v ∪ resolve_host_ips env h) valid_hosts
  else valid_hosts

/-- Verdict of the host classification common to both call shapes:
`allow rewritten newHost` means delegate (with the address rewritten to
`(newHost, port)` when `rewritten` is true), `block host` means raise
`OSError` naming `host`. -/
inductive HostVerdict where
  | allow (rewritten : Bool) (newHost : String)
  | block (host : String)
deriving DecidableEq

/-- Source lines 74-100 of `new_function`, after the host string and the base
`valid_hosts` have been extracted: extend the allow-list per the flags; if the
host equals the machine's hostname or FQDN, rewrite it to `"localhost"` with
identity set the singleton set of the rewritten host; otherwise resolve the
host; allow exactly when the identity set intersects `valid_hosts`. -/
def classify_host (env : NetEnv) (allow_astropy_data allow_github_data : Bool)
    (valid_hosts0 : Finset String) (host : String) : HostVerdict :=
  if host = env.hostname ∨ host = env.fqdn then
    if (({"localhost"} : Finset String) ∩
        extend_valid env allow_astropy_data allow_github_data valid_hosts0).Nonempty then
      HostVerdict.allow true "localhost"
    else HostVerdict.block "localhost"
  else
    if (resolve_host_ips env host ∩
        extend_valid env allow_astropy_data allow_github_data valid_hosts0).Nonempty then
      HostVerdict.allow false host
    else HostVerdict.block host

/-- Result of one call to a wrapped primitive: delegate to the original
primitive with the given arguments, raise the blocking `OSError` naming the
given host, or hit a Python runtime error of the wrapper itself (e.g.
`args[1][0]` on a missing or non-subscriptable address argument). -/
inductive CheckResult where
  | delegate (args : List PyArg)
  | blocked (host : String)
  | error
deriving DecidableEq

/-- Source lines 98-100: the message of the raised `OSError`. -/
def blockedMessage (host : String) : String :=
  "An attempt was made to connect to the internet by a test that was not " ++
  "marked remote_data. The requested host was: " ++ host

/-- Source lines 53-101, the `new_function` closure produced by
`check_internet_off`: dispatch on the shape of `args[0]`.

* socket object: non-internet families are passed straight through;
  internet families read `host = args[1][0]` with base allow-list
  `localhost / 127.0.0.1 / ::1`, and on rewrite replace `args[1]`
  with the 2-tuple `(host, args[1][1])`;
* a 2-tuple `(host, port)`: base allow-list `localhost / 127.0.0.1`,
  on rewrite `args[0]` is replaced by `(host, args[0][1])`;
* any other first argument (including tuples of length other than 2):
  passed straight through. -/
def new_function (env : NetEnv) (allow_astropy_data allow_github_data : Bool)
    (args : List PyArg) : CheckResult :=
  match args with
  | PyArg.sock fam :: rest =>
    if fam = AddressFamily.af_inet ∨ fam = AddressFamily.af_inet6 then
      match rest with
      | PyArg.tup h p _extra :: rest2 =>
        match classify_host env allow_astropy_data allow_github_data
            {"localhost", "127.0.0.1", "::1"} h with
        | HostVerdict.allow true h2 =>
          CheckResult.delegate (PyArg.sock fam :: PyArg.tup h2 p [] :: rest2)
        | HostVerdict.allow false _ => CheckResult.delegate args
        | HostVerdict.block hb => CheckResult.blocked hb
      | _ => CheckResult.error
    else CheckResult.delegate args
  | PyArg.tup h p extra :: rest =>
    if extra = [] then
      match classify_host env allow_astropy_data allow_github_data
          {"localhost", "127.0.0.1"} h with
      | HostVerdict.allow true h2 => CheckResult.delegate (PyArg.tup h2 p [] :: rest)
      | HostVerdict.allow false _ => CheckResult.delegate args
      | HostVerdict.block hb => CheckResult.blocked hb
    else CheckResult.delegate args
  | PyArg.otherObj _ :: _ => CheckResult.delegate args
  | [] => CheckResult.error

/-- An installed connection primitive: one of the three module-load originals
(source lines 9-12, captured once and never reassigned), or a
`check_internet_off` wrapper carrying its allow flags around an inner
primitive. -/
inductive Prim where
  | origCreateConnection
  | origBind
  | origConnect
  | wrapped (allow_astropy_data allow_github_data : Bool) (inner : Prim)
deriving DecidableEq

/-- Whether a primitive is a `check_internet_off` wrapper. -/
def Prim.isWrapped : Prim → Bool
  | .wrapped _ _ _ => true
  | _ => false

/-- A urllib opener object: `freshDefault` is the result of
`urllib.request.build_opener()` (default handler chain, automatic proxy
search), `noProxy` the result of building with a `ProxyHandler` over an empty
proxy table, `custom` any opener installed by code outside this module. -/
inductive Opener where
  | freshDefault
  | noProxy
  | custom (tag : Nat)
deriving DecidableEq

/-- The module's process-wide mutable state: the `INTERNET_OFF` flag
(line 18), the three currently installed primitives
(`socket.create_connection`, `socket.socket.bind`, `socket.socket.connect`),
the saved opener `_orig_opener` (line 23), and urllib's globally installed
opener (`none` while no opener has been installed, so the default is used). -/
structure CState where
  INTERNET_OFF : Bool
  create_connection : Prim
  bind : Prim
  connect : Prim
  orig_opener : Option Opener
  installed_opener : Option Opener
deriving DecidableEq

/-- Module-load state: flag false, primitives original, no saved opener,
no installed opener. -/
def initState : CState :=
  { INTERNET_OFF := false
    create_connection := Prim.origCreateConnection
    bind := Prim.origBind
    connect := Prim.origConnect
    orig_opener := none
    installed_opener := none }

/-- Source lines 104-143, `turn_off_internet`: return unchanged when already
off; otherwise set the flag, save a freshly built default opener in
`_orig_opener`, install a no-proxy opener, and install wrappers around the
module-load originals carrying the given allow flags.  (The `verbose`
parameter only prints and is omitted.) -/
def turn_off_internet (allow_astropy_data allow_github_data : Bool)
    (s : CState) : CState :=
  if s.INTERNET_OFF then s
  else
    { INTERNET_OFF := true
      create_connection :=
        Prim.wrapped allow_astropy_data allow_github_data Prim.origCreateConnection
      bind := Prim.wrapped allow_astropy_data allow_github_data Prim.origBind
      connect := Prim.wrapped allow_astropy_data allow_github_data Prim.origConnect
      orig_opener := some Opener.freshDefault
      installed_opener := some Opener.noProxy }

/-- Source lines 146-167, `turn_on_internet`: return unchanged when not off;
otherwise clear the flag, install the saved opener, and reinstall the
module-load original primitives. -/
def turn_on_internet (s : CState) : CState :=
  if !s.INTERNET_OFF then s
  else
    { INTERNET_OFF := false
      create_connection := Prim.origCreateConnection
      bind := Prim.origBind
      connect := Prim.origConnect
      orig_opener := s.orig_opener
      installed_opener := s.orig_opener }

/-- Source lines 170-186, the `no_internet` context manager run on a body.
The body is a state transformer returning its final state and whether it
raised; the `finally` block runs on both exit paths, so the state computation
is the same for a normal return and for a propagating exception (whose
propagation is the preserved boolean).  On entry record `INTERNET_OFF`
as `already_disabled` and call `turn_off_internet` (default flags); on exit
call `turn_on_internet` only when `already_disabled` was false. -/
def no_internet_run (body : CState → CState × Bool) (s : CState) :
    CState × Bool :=
  let already_disabled := s.INTERNET_OFF
  let r := body (turn_off_internet false false s)
  (if already_disabled then r.1 else turn_on_internet r.1, r.2)

/-- A wrapped-primitive call threaded through the controller state: the
wrapper itself never writes any module global, so only the delegated original
primitive (an arbitrary ambient effect `origEffect`) can change the state;
on the blocking and error paths the wrapper raises before any delegation. -/
def new_function_st (env : NetEnv) (allow_astropy_data allow_github_data : Bool)
    (origEffect : List PyArg → CState → CState) (args : List PyArg)
    (s : CState) : CheckResult × CState :=
  match new_function env allow_astropy_data allow_github_data args with
  | CheckResult.delegate args2 => (CheckResult.delegate args2, origEffect args2 s)
  | r => (r, s)

/-- States reachable from module load through the controller's two
operations. -/
inductive Reachable : CState → Prop where
  | init : Reachable initState
  | enable (a g : Bool) (s : CState) : Reachable s →
      Reachable (turn_off_internet a g s)
  | disable (s : CState) : Reachable s → Reachable (turn_on_internet s)

/-- The effective target host after the local-name rewrite of source lines
84-91: the requested host itself, or `"localhost"` when the request names
the machine's own hostname or FQDN. -/
def effective_target (env : NetEnv) (host : String) : String :=
  if host = env.hostname ∨ host = env.fqdn then "localhost" else host

/-- A concrete network environment used to exercise the definitions:
`www.python.org` resolves to one IP, `localhost` to the loopback addresses,
every other lookup fails; the machine is `myhost` with FQDN
`myhost.example.com`. -/
def testEnv : NetEnv where
  getaddrinfo := fun h _ =>
    if h = "www.python.org" then some ["151.101.0.223"]
    else if h = "localhost" then some ["127.0.0.1", "::1"]
    else none
  hostname := "myhost"
  fqdn := "myhost.example.com"

/-- A state with blocking inactive and a custom opener installed by code
outside this module. -/
def openerInstalledState : CState :=
  { initState with installed_opener := some (Opener.custom 0) }

theorem mem_foldl_union (f : String → Finset String) :
    ∀ (l : List String) (v : Finset String) (x : String), x ∈ v →
      x ∈ l.foldl (fun acc h => acc ∪ f h) v
  | [], _, _, hx => hx
  | a :: l, v, x, hx =>
      mem_foldl_union f l (v ∪ f a) x (Finset.mem_union_left _ hx)

theorem mem_extend_valid (env : NetEnv) (a g : Bool) (v : Finset String)
    (x : String) (hx : x ∈ v) : x ∈ extend_valid env a g v := by
  unfold extend_valid
  split
  · exact mem_foldl_union _ _ _ _ hx
  · split
    · exact mem_foldl_union _ _ _ _ hx
    · exact hx

theorem self_mem_resolve (env : NetEnv) (h : String) (p : Nat) :
    h ∈ resolve_host_ips env h p :=
  Finset.mem_insert_self _ _

theorem classify_host_of_local (env : NetEnv) (a g : Bool)
    (v0 : Finset String) (host : String)
    (hloc : host = env.hostname ∨ host = env.fqdn)
    (hl : "localhost" ∈ v0) :
    classify_host env a g v0 host = HostVerdict.allow true "localhost" := by
  unfold classify_host
  rw [if_pos hloc, if_pos]
  exact ⟨"localhost", Finset.mem_inter.mpr
    ⟨Finset.mem_singleton_self _, mem_extend_valid env a g v0 _ hl⟩⟩

theorem classify_host_of_remote (env : NetEnv) (a g : Bool)
    (v0 : Finset String) (host : String)
    (hloc : ¬(host = env.hostname ∨ host = env.fqdn)) :
    classify_host env a g v0 host =
      if (resolve_host_ips env host ∩ extend_valid env a g v0).Nonempty then
        HostVerdict.allow false host
      else HostVerdict.block host := by
  unfold classify_host
  rw [if_neg hloc]

/-- C7: `resolve_host_ips` is total ("never fails"), its result always
contains the original hostname string, and on DNS resolution failure it is
exactly the singleton of the original hostname. -/
theorem c7_resolve_never_fails (env : NetEnv) (hostname : String) (port : Nat) :
    hostname ∈ resolve_host_ips env hostname port ∧
    (env.getaddrinfo hostname port = none →
      resolve_host_ips env hostname port = {hostname}) := by
  refine ⟨Finset.mem_insert_self _ _, fun hfail => ?_⟩
  unfold resolve_host_ips
  rw [hfail]
  rfl

/-- Witness for C7 at a hostname whose lookup fails in `testEnv`. -/
theorem c7_resolve_never_fails_witness :
    testEnv.getaddrinfo "nosuch.example" 80 = none ∧
    resolve_host_ips testEnv "nosuch.example" 80 = {"nosuch.example"} :=
  ⟨by decide, (c7_resolve_never_fails testEnv "nosuch.example" 80).2 (by decide)⟩

/-- C2: enable twice in a row then disable once restores all three
primitives exactly to the module-load originals with no residual wrapper;
moreover disable from any enabled state installs the originally captured
primitives, never the currently installed ones. -/
theorem c2_enable_enable_disable (s : CState) (a1 g1 a2 g2 : Bool) :
    ((turn_on_internet (turn_off_internet a2 g2
        (turn_off_internet a1 g1 s))).create_connection =
      Prim.origCreateConnection ∧
     (turn_on_internet (turn_off_internet a2 g2
        (turn_off_internet a1 g1 s))).bind = Prim.origBind ∧
     (turn_on_internet (turn_off_internet a2 g2
        (turn_off_internet a1 g1 s))).connect = Prim.origConnect ∧
     (turn_on_internet (turn_off_internet a2 g2
        (turn_off_internet a1 g1 s))).create_connection.isWrapped = false ∧
     (turn_on_internet (turn_off_internet a2 g2
        (turn_off_internet a1 g1 s))).bind.isWrapped = false ∧
     (turn_on_internet (turn_off_internet a2 g2
        (turn_off_internet a1 g1 s))).connect.isWrapped = false) ∧
    (s.INTERNET_OFF = true →
      (turn_on_internet s).create_connection = Prim.origCreateConnection ∧
      (turn_on_internet s).bind = Prim.origBind ∧
      (turn_on_internet s).connect = Prim.origConnect) := by
  constructor
  · cases h : s.INTERNET_OFF <;>
      simp [turn_off_internet, turn_on_internet, h, Prim.isWrapped]
  · intro h
    simp [turn_on_internet, h]

/-- Witness for C2 at an enabled concrete state. -/
theorem c2_enable_enable_disable_witness :
    (turn_off_internet false false initState).INTERNET_OFF = true ∧
    ((turn_on_internet (turn_off_internet false false initState)).create_connection =
        Prim.origCreateConnection ∧
     (turn_on_internet (turn_off_internet false false initState)).bind =
        Prim.origBind ∧
     (turn_on_internet (turn_off_internet false false initState)).connect =
        Prim.origConnect) :=
  ⟨by decide,
   (c2_enable_enable_disable (turn_off_internet false false initState)
      false false false false).2 (by decide)⟩

/-- C5: on every reachable state the blocking flag holds exactly when all
three installed primitives are wrapped; the flag starts false; enable while
enabled and disable while disabled change nothing, in particular disable at
module load is a no-op. -/
theorem c5_flag_invariant (s : CState) (hs : Reachable s) :
    (s.INTERNET_OFF = true ↔
      (s.create_connection.isWrapped = true ∧ s.bind.isWrapped = true ∧
       s.connect.isWrapped = true)) ∧
    initState.INTERNET_OFF = false ∧
    (∀ a g, s.INTERNET_OFF = true → turn_off_internet a g s = s) ∧
    (s.INTERNET_OFF = false → turn_on_internet s = s) ∧
    turn_on_internet initState = initState := by
  refine ⟨?_, rfl, ?_, ?_, by decide⟩
  · induction hs with
    | init => simp [initState, Prim.isWrapped]
    | enable a g t _ ih =>
        cases h : t.INTERNET_OFF with
        | true => simpa [turn_off_internet, h] using ih
        | false => simp [turn_off_internet, h, Prim.isWrapped]
    | disable t _ ih =>
        cases h : t.INTERNET_OFF with
        | true => simp [turn_on_internet, h, Prim.isWrapped]
        | false => simpa [turn_on_internet, h] using ih
  · intro a g h
    unfold turn_off_internet
    rw [if_pos h]
  · intro h
    unfold turn_on_internet
    rw [if_pos (by simp [h])]

/-- Witness for C5 at the initial state. -/
theorem c5_flag_invariant_witness :
    Reachable initState ∧
    ((initState.INTERNET_OFF = true ↔
      (initState.create_connection.isWrapped = true ∧
       initState.bind.isWrapped = true ∧ initState.connect.isWrapped = true)) ∧
     initState.INTERNET_OFF = false ∧
     (∀ a g, initState.INTERNET_OFF = true →
        turn_off_internet a g initState = initState) ∧
     (initState.INTERNET_OFF = false → turn_on_internet initState = initState) ∧
     turn_on_internet initState = initState) :=
  ⟨Reachable.init, c5_flag_invariant initState Reachable.init⟩

/-- C3: the scoped guard enables on entry and disables on exit only when the
flag was false at entry; for any body that does not itself toggle the flag,
on both exit paths (a raised exception is propagated unchanged, the state
computation is shared with the normal path), the flag after the guard equals
the flag at entry, and entering with the flag already true leaves it true. -/
theorem c3_no_internet_scoped (body : CState → CState × Bool) (s : CState)
    (hbody : ∀ t, (body t).1.INTERNET_OFF = t.INTERNET_OFF) :
    (no_internet_run body s).1.INTERNET_OFF = s.INTERNET_OFF ∧
    (s.INTERNET_OFF = true → (no_internet_run body s).1.INTERNET_OFF = true) ∧
    (no_internet_run body s).2 = (body (turn_off_internet false false s)).2 := by
  have hmain : (no_internet_run body s).1.INTERNET_OFF = s.INTERNET_OFF := by
    cases h : s.INTERNET_OFF with
    | true =>
        have hoff : turn_off_internet false false s = s := by
          unfold turn_off_internet; rw [if_pos h]
        have hb := hbody (turn_off_internet false false s)
        rw [hoff, h] at hb
        simp [no_internet_run, h, hoff, hb]
    | false =>
        have h1 : (turn_off_internet false false s).INTERNET_OFF = true := by
          simp [turn_off_internet, h]
        have hb := hbody (turn_off_internet false false s)
        rw [h1] at hb
        simp only [no_internet_run, h]
        simp [turn_on_internet, hb]
  exact ⟨hmain, fun ht => by rw [hmain, ht], rfl⟩

/-- Witness for C3 with a flag-preserving body at the initial state. -/
theorem c3_no_internet_scoped_witness :
    (∀ t : CState, ((t, false) : CState × Bool).1.INTERNET_OFF =
      t.INTERNET_OFF) ∧
    ((no_internet_run (fun t => (t, false)) initState).1.INTERNET_OFF =
        initState.INTERNET_OFF ∧
     (initState.INTERNET_OFF = true →
        (no_internet_run (fun t => (t, false)) initState).1.INTERNET_OFF = true) ∧
     (no_internet_run (fun t => (t, false)) initState).2 =
        ((fun t : CState => (t, false))
          (turn_off_internet false false initState)).2) :=
  ⟨fun _ => rfl,
   c3_no_internet_scoped (fun t => (t, false)) initState (fun _ => rfl)⟩

/-- C10: enable while already enabled is a complete no-op that ignores the
allow flags — the installed wrappers keep the first enable's configuration
and the saved opener is unchanged — and only an enable after a disable
installs wrappers carrying the newly requested flags. -/
theorem c10_reenable_ignores_flags (s : CState) (a1 g1 a2 g2 : Bool)
    (h : s.INTERNET_OFF = false) :
    turn_off_internet a2 g2 (turn_off_internet a1 g1 s) =
      turn_off_internet a1 g1 s ∧
    (turn_off_internet a1 g1 s).create_connection =
      Prim.wrapped a1 g1 Prim.origCreateConnection ∧
    (turn_off_internet a1 g1 s).bind = Prim.wrapped a1 g1 Prim.origBind ∧
    (turn_off_internet a1 g1 s).connect = Prim.wrapped a1 g1 Prim.origConnect ∧
    (turn_off_internet a2 g2 (turn_off_internet a1 g1 s)).orig_opener =
      (turn_off_internet a1 g1 s).orig_opener ∧
    (turn_off_internet a2 g2 (turn_on_internet
        (turn_off_internet a1 g1 s))).create_connection =
      Prim.wrapped a2 g2 Prim.origCreateConnection := by
  simp [turn_off_internet, turn_on_internet, h]

/-- Witness for C10 at the initial state with differing flag requests. -/
theorem c10_reenable_ignores_flags_witness :
    initState.INTERNET_OFF = false ∧
    (turn_off_internet true true (turn_off_internet false false initState) =
      turn_off_internet false false initState ∧
     (turn_off_internet false false initState).create_connection =
      Prim.wrapped false false Prim.origCreateConnection ∧
     (turn_off_internet false false initState).bind =
      Prim.wrapped false false Prim.origBind ∧
     (turn_off_internet false false initState).connect =
      Prim.wrapped false false Prim.origConnect ∧
     (turn_off_internet true true
        (turn_off_internet false false initState)).orig_opener =
      (turn_off_internet false false initState).orig_opener ∧
     (turn_off_internet true true (turn_on_internet
        (turn_off_internet false false initState))).create_connection =
      Prim.wrapped true true Prim.origCreateConnection) :=
  ⟨rfl, c10_reenable_ignores_flags initState false false true true rfl⟩

/-- C4 as stated fails: with a custom opener installed and blocking
inactive, enable does not save the opener currently in effect (it saves a
freshly built default opener), so after enable then disable the installed
opener is not the one that was in place before enable. -/
theorem c4_opener_counterexample :
    ¬((turn_off_internet false false openerInstalledState).orig_opener =
        openerInstalledState.installed_opener ∧
      (turn_on_internet (turn_off_internet false false
          openerInstalledState)).installed_opener =
        openerInstalledState.installed_opener) := by
  decide

/-- C4 amended: on enable from the disabled state a freshly built default
opener is saved (the currently installed opener is not consulted) and a
no-proxy opener is installed; on disable the saved opener is reinstalled, so
after the matching disable the installed opener is a fresh default opener
regardless of what was installed before enable; the saved opener is
overwritten only while blocking is inactive. -/
theorem c4_opener_restoration (s : CState) (a g : Bool) :
    (s.INTERNET_OFF = false →
      (turn_off_internet a g s).orig_opener = some Opener.freshDefault ∧
      (turn_off_internet a g s).installed_opener = some Opener.noProxy ∧
      (turn_on_internet (turn_off_internet a g s)).installed_opener =
        some Opener.freshDefault) ∧
    (s.INTERNET_OFF = true →
      (turn_off_internet a g s).orig_opener = s.orig_opener) ∧
    (s.INTERNET_OFF = true →
      (turn_on_internet s).installed_opener = s.orig_opener) := by
  refine ⟨fun h => ?_, fun h => ?_, fun h => ?_⟩
  · simp [turn_off_internet, turn_on_internet, h]
  · simp [turn_off_internet, h]
  · simp [turn_on_internet, h]

/-- Witness for the amended C4 at the custom-opener state. -/
theorem c4_opener_restoration_witness :
    openerInstalledState.INTERNET_OFF = false ∧
    ((turn_off_internet false false openerInstalledState).orig_opener =
        some Opener.freshDefault ∧
     (turn_off_internet false false openerInstalledState).installed_opener =
        some Opener.noProxy ∧
     (turn_on_internet (turn_off_internet false false
        openerInstalledState)).installed_opener = some Opener.freshDefault) :=
  ⟨rfl, (c4_opener_restoration openerInstalledState false false).1 rfl⟩

/-- C9: a blocked call is atomic with respect to the controller state: when
the state-threaded wrapper returns the blocking error, the state after the
call — the flag, the three installed primitives, the saved opener and the
installed opener — equals the state before it (the module-load originals are
constants of the embedding and unchangeable). -/
theorem c9_blocked_atomic (env : NetEnv) (a g : Bool)
    (origEffect : List PyArg → CState → CState) (args : List PyArg)
    (s : CState) (host : String)
    (h : (new_function_st env a g origEffect args s).1 =
      CheckResult.blocked host) :
    (new_function_st env a g origEffect args s).2 = s := by
  unfold new_function_st at h ⊢
  cases hnf : new_function env a g args with
  | delegate args2 =>
      rw [hnf] at h
      exact CheckResult.noConfusion
        (show CheckResult.delegate args2 = CheckResult.blocked host from h)
  | blocked hb => rfl
  | error => rfl

/-- Witness for C9 at a concrete blocked call. -/
theorem c9_blocked_atomic_witness :
    (new_function_st testEnv false false (fun _ _ => initState)
        [PyArg.tup "www.python.org" 80 []] openerInstalledState).1 =
      CheckResult.blocked "www.python.org" ∧
    (new_function_st testEnv false false (fun _ _ => initState)
        [PyArg.tup "www.python.org" 80 []] openerInstalledState).2 =
      openerInstalledState :=
  ⟨by decide,
   c9_blocked_atomic testEnv false false (fun _ _ => initState)
     [PyArg.tup "www.python.org" 80 []] openerInstalledState
     "www.python.org" (by decide)⟩

/-- C8: a first argument that is a socket of a non-internet family, or that
is neither a socket object nor a 2-tuple, bypasses all classification: the
call is passed straight through to the original primitive with unchanged
arguments and is never blocked or failed by the wrapper. -/
theorem c8_passthrough_ungoverned (env : NetEnv) (a g : Bool)
    (fam : AddressFamily) (rest : List PyArg) (tag : Nat) (h2 : String)
    (p2 : Nat) (extra : List Nat)
    (hfam : ¬(fam = AddressFamily.af_inet ∨ fam = AddressFamily.af_inet6))
    (hextra : extra ≠ []) :
    new_function env a g (PyArg.sock fam :: rest) =
      CheckResult.delegate (PyArg.sock fam :: rest) ∧
    new_function env a g (PyArg.otherObj tag :: rest) =
      CheckResult.delegate (PyArg.otherObj tag :: rest) ∧
    new_function env a g (PyArg.tup h2 p2 extra :: rest) =
      CheckResult.delegate (PyArg.tup h2 p2 extra :: rest) := by
  refine ⟨?_, rfl, ?_⟩
  · simp only [new_function, if_neg hfam]
  · simp only [new_function, if_neg hextra]

/-- Witness for C8 at a unix socket, a non-tuple object, and a 4-tuple. -/
theorem c8_passthrough_ungoverned_witness :
    (¬(AddressFamily.af_unix = AddressFamily.af_inet ∨
        AddressFamily.af_unix = AddressFamily.af_inet6)) ∧
    ([80, 0] ≠ ([] : List Nat)) ∧
    (new_function testEnv false false [PyArg.sock AddressFamily.af_unix] =
      CheckResult.delegate [PyArg.sock AddressFamily.af_unix] ∧
     new_function testEnv false false [PyArg.otherObj 7] =
      CheckResult.delegate [PyArg.otherObj 7] ∧
     new_function testEnv false false [PyArg.tup "example.com" 443 [80, 0]] =
      CheckResult.delegate [PyArg.tup "example.com" 443 [80, 0]]) :=
  ⟨by decide, by decide,
   c8_passthrough_ungoverned testEnv false false AddressFamily.af_unix []
     7 "example.com" 443 [80, 0] (by decide) (by decide)⟩

/-- C6: a connection attempt naming the machine's own hostname or FQDN is
rewritten in place to localhost with the original port and then delegated to
the original primitive, for both call shapes and for any allow-flag
configuration. -/
theorem c6_local_name_rewrite (env : NetEnv) (a g : Bool)
    (fam : AddressFamily) (h : String) (p : Nat) (extra : List Nat)
    (rest : List PyArg)
    (hfam : fam = AddressFamily.af_inet ∨ fam = AddressFamily.af_inet6)
    (hloc : h = env.hostname ∨ h = env.fqdn) :
    new_function env a g (PyArg.sock fam :: PyArg.tup h p extra :: rest) =
      CheckResult.delegate
        (PyArg.sock fam :: PyArg.tup "localhost" p [] :: rest) ∧
    new_function env a g (PyArg.tup h p [] :: rest) =
      CheckResult.delegate (PyArg.tup "localhost" p [] :: rest) := by
  have hclS := classify_host_of_local env a g
    {"localhost", "127.0.0.1", "::1"} h hloc (Finset.mem_insert_self _ _)
  have hclT := classify_host_of_local env a g
    {"localhost", "127.0.0.1"} h hloc (Finset.mem_insert_self _ _)
  constructor
  · simp only [new_function, if_pos hfam, hclS]
  · simp [new_function, hclT]

/-- Witness for C6 at the test machine's own hostname with no allow flags. -/
theorem c6_local_name_rewrite_witness :
    ((AddressFamily.af_inet = AddressFamily.af_inet ∨
       AddressFamily.af_inet = AddressFamily.af_inet6) ∧
     ("myhost" = testEnv.hostname ∨ "myhost" = testEnv.fqdn)) ∧
    (new_function testEnv false false
        [PyArg.sock AddressFamily.af_inet, PyArg.tup "myhost" 8080 []] =
      CheckResult.delegate
        [PyArg.sock AddressFamily.af_inet, PyArg.tup "localhost" 8080 []] ∧
     new_function testEnv false false [PyArg.tup "myhost" 8080 []] =
      CheckResult.delegate [PyArg.tup "localhost" 8080 []]) :=
  ⟨⟨Or.inl rfl, Or.inl rfl⟩,
   c6_local_name_rewrite testEnv false false AddressFamily.af_inet
     "myhost" 8080 [] [] (Or.inl rfl) (Or.inl rfl)⟩

/-- C1: for both internet-family call shapes the wrapper raises the blocking
error naming the requested host exactly when the resolved identity set of
the (possibly rewritten) target host does not intersect the extended
allow-list; when the intersection is nonempty it delegates with the original
or rewritten arguments, and the error message names the host. -/
theorem c1_blocked_iff_unlisted (env : NetEnv) (a g : Bool)
    (fam : AddressFamily) (h : String) (p : Nat) (rest : List PyArg)
    (hfam : fam = AddressFamily.af_inet ∨ fam = AddressFamily.af_inet6) :
    (new_function env a g (PyArg.sock fam :: PyArg.tup h p [] :: rest) =
        CheckResult.blocked h ↔
      resolve_host_ips env (effective_target env h) ∩
        extend_valid env a g {"localhost", "127.0.0.1", "::1"} = ∅) ∧
    ((resolve_host_ips env (effective_target env h) ∩
        extend_valid env a g {"localhost", "127.0.0.1", "::1"}).Nonempty →
      new_function env a g (PyArg.sock fam :: PyArg.tup h p [] :: rest) =
        CheckResult.delegate
          (PyArg.sock fam :: PyArg.tup (effective_target env h) p [] :: rest)) ∧
    (new_function env a g (PyArg.tup h p [] :: rest) =
        CheckResult.blocked h ↔
      resolve_host_ips env (effective_target env h) ∩
        extend_valid env a g {"localhost", "127.0.0.1"} = ∅) ∧
    ((resolve_host_ips env (effective_target env h) ∩
        extend_valid env a g {"localhost", "127.0.0.1"}).Nonempty →
      new_function env a g (PyArg.tup h p [] :: rest) =
        CheckResult.delegate (PyArg.tup (effective_target env h) p [] :: rest)) ∧
    blockedMessage h =
      ("An attempt was made to connect to the internet by a test that was not " ++
       "marked remote_data. The requested host was: ") ++ h := by
  by_cases hloc : h = env.hostname ∨ h = env.fqdn
  · have htgt : effective_target env h = "localhost" := by
      unfold effective_target; rw [if_pos hloc]
    rw [htgt]
    have hclS := classify_host_of_local env a g
      {"localhost", "127.0.0.1", "::1"} h hloc (Finset.mem_insert_self _ _)
    have hclT := classify_host_of_local env a g
      {"localhost", "127.0.0.1"} h hloc (Finset.mem_insert_self _ _)
    have hneS : (resolve_host_ips env "localhost" ∩
        extend_valid env a g {"localhost", "127.0.0.1", "::1"}).Nonempty :=
      ⟨"localhost", Finset.mem_inter.mpr ⟨self_mem_resolve env _ _,
        mem_extend_valid env a g _ _ (Finset.mem_insert_self _ _)⟩⟩
    have hneT : (resolve_host_ips env "localhost" ∩
        extend_valid env a g {"localhost", "127.0.0.1"}).Nonempty :=
      ⟨"localhost", Finset.mem_inter.mpr ⟨self_mem_resolve env _ _,
        mem_extend_valid env a g _ _ (Finset.mem_insert_self _ _)⟩⟩
    refine ⟨?_, fun _ => ?_, ?_, fun _ => ?_, rfl⟩
    · simp [new_function, if_pos hfam, hclS, hneS.ne_empty]
    · simp only [new_function, if_pos hfam, hclS]
    · simp [new_function, hclT, hneT.ne_empty]
    · simp [new_function, hclT]
  · have htgt : effective_target env h = h := by
      unfold effective_target; rw [if_neg hloc]
    rw [htgt]
    have hclS := classify_host_of_remote env a g
      {"localhost", "127.0.0.1", "::1"} h hloc
    have hclT := classify_host_of_remote env a g
      {"localhost", "127.0.0.1"} h hloc
    refine ⟨?_, fun hne => ?_, ?_, fun hne => ?_, rfl⟩
    · by_cases hne : (resolve_host_ips env h ∩
          extend_valid env a g {"localhost", "127.0.0.1", "::1"}).Nonempty
      · rw [if_pos hne] at hclS
        simp [new_function, if_pos hfam, hclS, hne.ne_empty]
      · rw [if_neg hne] at hclS
        simp [new_function, if_pos hfam, hclS,
          Finset.not_nonempty_iff_eq_empty.mp hne]
    · rw [if_pos hne] at hclS
      simp only [new_function, if_pos hfam, hclS]
    · by_cases hne : (resolve_host_ips env h ∩
          extend_valid env a g {"localhost", "127.0.0.1"}).Nonempty
      · rw [if_pos hne] at hclT
        simp [new_function, hclT, hne.ne_empty]
      · rw [if_neg hne] at hclT
        simp [new_function, hclT,
          Finset.not_nonempty_iff_eq_empty.mp hne]
    · rw [if_pos hne] at hclT
      simp [new_function, hclT]

/-- Witness for C1 at a remote host that resolves but is not allow-listed. -/
theorem c1_blocked_iff_unlisted_witness :
    (AddressFamily.af_inet = AddressFamily.af_inet ∨
      AddressFamily.af_inet = AddressFamily.af_inet6) ∧
    ((new_function testEnv false false
        [PyArg.sock AddressFamily.af_inet,
         PyArg.tup "www.python.org" 80 []] =
        CheckResult.blocked "www.python.org" ↔
      resolve_host_ips testEnv
          (effective_target testEnv "www.python.org") ∩
        extend_valid testEnv false false
          {"localhost", "127.0.0.1", "::1"} = ∅) ∧
     ((resolve_host_ips testEnv
          (effective_target testEnv "www.python.org") ∩
        extend_valid testEnv false false
          {"localhost", "127.0.0.1", "::1"}).Nonempty →
      new_function testEnv false false
        [PyArg.sock AddressFamily.af_inet,
         PyArg.tup "www.python.org" 80 []] =
        CheckResult.delegate
          [PyArg.sock AddressFamily.af_inet,
           PyArg.tup (effective_target testEnv "www.python.org") 80 []]) ∧
     (new_function testEnv false false [PyArg.tup "www.python.org" 80 []] =
        CheckResult.blocked "www.python.org" ↔
      resolve_host_ips testEnv
          (effective_target testEnv "www.python.org") ∩
        extend_valid testEnv false false {"localhost", "127.0.0.1"} = ∅) ∧
     ((resolve_host_ips testEnv
          (effective_target testEnv "www.python.org") ∩
        extend_valid testEnv false false
          {"localhost", "127.0.0.1"}).Nonempty →
      new_function testEnv false false [PyArg.tup "www.python.org" 80 []] =
        CheckResult.delegate
          [PyArg.tup (effective_target testEnv "www.python.org") 80 []]) ∧
     blockedMessage "www.python.org" =
      ("An attempt was made to connect to the internet by a test that was not " ++
       "marked remote_data. The requested host was: ") ++ "www.python.org") :=
  ⟨Or.inl rfl,
   c1_blocked_iff_unlisted testEnv false false AddressFamily.af_inet
     "www.python.org" 80 [] (Or.inl rfl)⟩

end DisableInternet
